import Mathlib

/-!
# PostgreSQL-Profiler: verification of the monitoring / analysis core

Shallow embedding of the monitoring-and-analysis engine of the
PostgreSQL-Profiler repository, faithful to the Python sources under
`src/postgresql_profiler/src/services/`, together with theorems settling the
frozen claims about the natural-language specification.

Conventions:
* Python `dict`s keyed by target id / model key become association lists with
  Python-dict update semantics (`setEntry` replaces in place, otherwise
  appends; `lookupEntry` finds the entry).
* Python `float` quantities (`mean_time`, anomaly scores, metric fields)
  become `ℚ`; `datetime` instants become `Nat` seconds.
* Fallible operations return `Option`/explicit result types; a `try/except`
  that logs and returns `None` becomes the `none` branch.
* The ML estimators are black boxes (per the spec, training internals are out
  of scope): an `MLModel` carries the value its `predict` returns and its
  `decision_function` score.
-/

namespace PgProfiler

/-- Python truthiness of an optional integer (`if database_id:` is false for
both `None` and `0`). -/
def pyTruthy : Option Nat → Bool
  | none => false
  | some n => n ≠ 0

/-- Lookup in an association list modelling a Python `dict`
(`d[k]` / `k in d`). -/
def lookupEntry {κ α : Type} [BEq κ] (l : List (κ × α)) (k : κ) : Option α :=
  (l.find? (fun e => e.1 == k)).map (fun e => e.2)

/-- Python `dict` assignment `d[k] = v`: replace the entry in place when the
key is present, append otherwise. -/
def setEntry {κ α : Type} [BEq κ] : List (κ × α) → κ → α → List (κ × α)
  | [], k, v => [(k, v)]
  | e :: es, k, v => if e.1 == k then (k, v) :: es else e :: setEntry es k v

/-- Update the first element satisfying `p` (SQLAlchemy
`query.filter_by(...).first()` followed by in-place mutation). -/
def updateFirst {α : Type} (p : α → Bool) (f : α → α) : List α → List α
  | [] => []
  | x :: xs => if p x then f x :: xs else x :: updateFirst p f xs

theorem lookupEntry_setEntry_self {κ α : Type} [BEq κ] [LawfulBEq κ]
    (l : List (κ × α)) (k : κ) (v : α) :
    lookupEntry (setEntry l k v) k = some v := by
  induction l with
  | nil => simp [lookupEntry, setEntry, List.find?]
  | cons e es ih =>
    by_cases he : e.1 == k
    · simp [lookupEntry, setEntry, he, List.find?]
    · simpa [lookupEntry, setEntry, he, List.find?] using ih

theorem lookupEntry_setEntry_ne {κ α : Type} [BEq κ] [LawfulBEq κ]
    (l : List (κ × α)) (k j : κ) (v : α) (hne : j ≠ k) :
    lookupEntry (setEntry l k v) j = lookupEntry l j := by
  have hkj : ¬ (k == j) := by
    simp only [beq_iff_eq]
    exact fun hkj => hne hkj.symm
  induction l with
  | nil => simp [lookupEntry, setEntry, List.find?, hkj]
  | cons e es ih =>
    by_cases he : e.1 == k
    · have he' : e.1 = k := by simpa using he
      simp [lookupEntry, setEntry, he, List.find?, hkj, he']
    · by_cases hej : e.1 == j
      · simp [lookupEntry, setEntry, he, List.find?, hej]
      · simpa [lookupEntry, setEntry, he, List.find?, hej] using ih

/-! ## Query-statistics collection (`celery_tasks.py`, `collect_query_statistics_task`)

`QueryStatistic` rows are reconciled by `(database_id, query_hash)`: an
existing row has its counters overwritten and its `performance_category`
recomputed from the fresh `mean_time`, with `last_seen` bumped; an absent row
is inserted. The latency-band classification appears twice in the source
(update path, lines 205–213, and insert path, lines 234–242); both copies are
embedded separately. -/

/-- Latency-band classification on the update path
(`celery_tasks.py` lines 205–213). -/
def performanceCategoryUpdate (mean_time : ℚ) : String :=
  if mean_time > 1000 then "critical"
  else if mean_time > 500 then "slow"
  else if mean_time > 100 then "normal"
  else "fast"

/-- Latency-band classification on the insert path
(`celery_tasks.py` lines 234–242). -/
def performanceCategoryInsert (mean_time : ℚ) : String :=
  if mean_time > 1000 then "critical"
  else if mean_time > 500 then "slow"
  else if mean_time > 100 then "normal"
  else "fast"

/-- One row returned by `postgresql_monitor.collect_query_statistics`. -/
structure StatRow where
  query_hash : String
  query_text : String
  query_type : String
  calls : Nat
  total_time : ℚ
  mean_time : ℚ
  min_time : ℚ
  max_time : ℚ
  rows_returned : Nat
  shared_blks_hit : Nat
  shared_blks_read : Nat
  shared_blks_written : Nat
deriving DecidableEq

/-- A persisted `QueryStatistic` record (fields as assigned by
`collect_query_statistics_task`; the column defaults of the ORM class are not
under src/, `last_seen` on insert is the row-creation time). -/
structure QueryStatRec where
  database_id : Nat
  query_hash : String
  query_text : String
  query_type : String
  calls : Nat
  total_time : ℚ
  mean_time : ℚ
  min_time : ℚ
  max_time : ℚ
  rows_returned : Nat
  shared_blks_hit : Nat
  shared_blks_read : Nat
  shared_blks_written : Nat
  performance_category : String
  last_seen : Nat
deriving DecidableEq

/-- Reconciliation key match: `QueryStatistic.query.filter_by(database_id=db_id,
query_hash=stat.query_hash)`. -/
def statMatches (dbId : Nat) (hash : String) (q : QueryStatRec) : Bool :=
  q.database_id == dbId && q.query_hash == hash

/-- Update path of the reconciliation loop: overwrite counters and timing
fields, bump `last_seen`, recompute `performance_category`
(`celery_tasks.py` lines 192–215). `query_text`/`query_type` are not touched. -/
def applyStatRow (now : Nat) (r : StatRow) (q : QueryStatRec) : QueryStatRec :=
  { q with
    calls := r.calls
    total_time := r.total_time
    mean_time := r.mean_time
    min_time := r.min_time
    max_time := r.max_time
    rows_returned := r.rows_returned
    shared_blks_hit := r.shared_blks_hit
    shared_blks_read := r.shared_blks_read
    shared_blks_written := r.shared_blks_written
    last_seen := now
    performance_category := performanceCategoryUpdate r.mean_time }

/-- Insert path of the reconciliation loop (`celery_tasks.py` lines 217–245). -/
def newStatRec (dbId : Nat) (now : Nat) (r : StatRow) : QueryStatRec :=
  { database_id := dbId
    query_hash := r.query_hash
    query_text := r.query_text
    query_type := r.query_type
    calls := r.calls
    total_time := r.total_time
    mean_time := r.mean_time
    min_time := r.min_time
    max_time := r.max_time
    rows_returned := r.rows_returned
    shared_blks_hit := r.shared_blks_hit
    shared_blks_read := r.shared_blks_read
    shared_blks_written := r.shared_blks_written
    performance_category := performanceCategoryInsert r.mean_time
    last_seen := now }

/-- Process one returned row against the store: update the first matching
record, else insert a new one. -/
def reconcileRow (dbId : Nat) (now : Nat) (store : List QueryStatRec)
    (r : StatRow) : List QueryStatRec :=
  if store.any (statMatches dbId r.query_hash) then
    updateFirst (statMatches dbId r.query_hash) (applyStatRow now r) store
  else
    store ++ [newStatRec dbId now r]

/-- One collection pass of `collect_query_statistics_task`: fold the returned
rows over the store in order (last-write-wins within a pass). -/
def collectQueryStatisticsPass (dbId : Nat) (now : Nat)
    (store : List QueryStatRec) (rows : List StatRow) : List QueryStatRec :=
  rows.foldl (reconcileRow dbId now) store

/-! ## Connection pool manager (`postgresql_monitor.py`, `PostgreSQLMonitor`)

`self.connection_pools : Dict[int, asyncpg.Pool]` becomes an association list
from target id to an abstract pool object. `asyncpg.create_pool` is the
fallible constructor: its outcome is an `Option Pool` argument (`none` models
the constructor raising, caught by the `except` clause which returns
`False`). -/

/-- An established `asyncpg` pool; the identifier distinguishes distinct pool
objects. -/
structure Pool where
  pool_id : Nat
deriving DecidableEq

/-- `PostgreSQLMonitor.create_connection_pool` (lines 29–48): on constructor
success, store the pool under the target id and return `True`; on constructor
failure return `False` leaving the map untouched. -/
def create_connection_pool (pools : List (Nat × Pool)) (dbId : Nat)
    (constructed : Option Pool) : Bool × List (Nat × Pool) :=
  match constructed with
  | some pool => (true, setEntry pools dbId pool)
  | none => (false, pools)

/-- The caller-side guard in `collect_metrics_task` (`celery_tasks.py` lines
83–90): create the pool only when `db_id not in
postgresql_monitor.connection_pools`. Returns the task-level success flag and
the resulting pool map. -/
def ensure_connection_pool (pools : List (Nat × Pool)) (dbId : Nat)
    (constructed : Option Pool) : Bool × List (Nat × Pool) :=
  if (lookupEntry pools dbId).isSome then (true, pools)
  else create_connection_pool pools dbId constructed

/-! ## Cache layer (`cache_service.py`)

Redis stores the exact bytes `json.dumps(value)`; `CacheService.get` tests
Python truthiness of those raw bytes before decoding. Values are modelled as
JSON values (`json.loads (json.dumps v) = v` holds by construction for this
domain); Python `None` and JSON `null` are the same value `JVal.jnull`, which
is also what `get` returns on a miss. -/

/-- A JSON-representable Python value. -/
inductive JVal where
  | jnull : JVal
  | jbool : Bool → JVal
  | jnum : ℚ → JVal
  | jstr : String → JVal
  | jarr : List JVal → JVal
  | jobj : List (String × JVal) → JVal

/-- `json.dumps` (enough of it to decide truthiness of the serialized bytes:
every constructor emits a non-empty string). -/
def dumps : JVal → String
  | .jnull => "null"
  | .jbool true => "true"
  | .jbool false => "false"
  | .jnum q => toString q
  | .jstr s => "\"" ++ s ++ "\""
  | .jarr _ => "["
  | .jobj _ => "\x7b"

/-- Python truthiness of a decoded JSON value (`if cached_result:` in the
`cache_response` decorator). -/
def jTruthy : JVal → Bool
  | .jnull => false
  | .jbool b => b
  | .jnum q => q ≠ 0
  | .jstr s => s ≠ ""
  | .jarr xs => ¬ xs.isEmpty
  | .jobj fs => ¬ fs.isEmpty

/-- `CacheService.set` (lines 21–30): `redis.setex(key, timeout, json.dumps(value))`.
TTL bookkeeping is not modelled (all reads in the claims happen within the
TTL). -/
def cacheSet (store : List (String × JVal)) (key : String) (v : JVal) :
    List (String × JVal) :=
  setEntry store key v

/-- `CacheService.get` (lines 11–19): `value = redis.get(key)`; a missing key
gives Python `None` (falsy), a present key gives the serialized bytes, whose
truthiness is tested (`if value:`) before `json.loads`. The function returns a
Python value; on the fall-through path that value is `None` (= `jnull`). -/
def cacheGet (store : List (String × JVal)) (key : String) : JVal :=
  match lookupEntry store key with
  | none => .jnull
  | some v => if dumps v = "" then .jnull else v

/-- The `cache_response` decorator (lines 50–74): serve the cached value only
when the decoded value is truthy; otherwise execute the wrapped function and
cache its result. Returns (response, new store, whether the wrapped function
ran). -/
def cacheResponse (store : List (String × JVal)) (key : String)
    (f : Unit → JVal) : JVal × List (String × JVal) × Bool :=
  let cached := cacheGet store key
  if jTruthy cached then (cached, store, false)
  else
    let result := f ()
    (result, cacheSet store key result, true)

/-! ## ML training tasks (`ml_tasks.py`)

A `DatabaseMetric` sample with nullable numeric columns. The trainers filter
rows whose required fields are all non-null, and only after both size gates
pass do they call `joblib.dump` — the embedded trainers return their result
status together with the list of artifact paths written. -/

/-- A stored metric sample as read by the trainers and the analyzer
(nullable columns from the `DatabaseMetric` model). -/
structure MetricRec where
  cpu_usage : Option ℚ
  memory_usage : Option ℚ
  disk_io : Option ℚ
  active_connections : Option ℚ
  cache_hit_ratio : Option ℚ
  avg_query_time : Option ℚ
  locks_count : Option ℚ
  deadlocks_count : Option ℚ
deriving DecidableEq

/-- `MIN_TRAIN_SIZE` (`ml_tasks.py` line 25). -/
def MIN_TRAIN_SIZE : Nat := 50

/-- `MIN_PREDICTION_SIZE` (`ml_tasks.py` line 26). -/
def MIN_PREDICTION_SIZE : Nat := 10

/-- Outcome of a training task (the dict returned by the Python task, with
`insufficient_data` / `insufficient_valid_data` / `success` statuses). -/
inductive TrainResult where
  | insufficient_data (records required : Nat) : TrainResult
  | insufficient_valid_data (valid total : Nat) : TrainResult
  | success (model_path scaler_path : String) : TrainResult
deriving DecidableEq

/-- Whether a training outcome is one of the two explicit insufficient-data
results. -/
def TrainResult.insufficient : TrainResult → Bool
  | .insufficient_data _ _ => true
  | .insufficient_valid_data _ _ => true
  | .success _ _ => false

/-- Row filter of `train_load_predictor` (lines 70–75): the six load-feature
fields must all be non-null. -/
def loadRowValid (m : MetricRec) : Bool :=
  m.cpu_usage.isSome && m.memory_usage.isSome && m.disk_io.isSome &&
  m.active_connections.isSome && m.cache_hit_ratio.isSome &&
  m.avg_query_time.isSome

/-- Row filter of `train_anomaly_detector` (lines 199–203). -/
def anomalyRowValid (m : MetricRec) : Bool :=
  m.cpu_usage.isSome && m.memory_usage.isSome &&
  m.active_connections.isSome && m.avg_query_time.isSome

/-- Row filter of `train_query_time_predictor` (lines 285–289): the four
fields non-null and `avg_query_time > 0`. -/
def queryTimeRowValid (m : MetricRec) : Bool :=
  m.cpu_usage.isSome && m.memory_usage.isSome &&
  m.active_connections.isSome && m.avg_query_time.isSome &&
  (match m.avg_query_time with
   | some t => t > 0
   | none => false)

/-- Artifact path pair chosen by `train_load_predictor` (lines 143–150). -/
def loadModelPaths (dbId : Option Nat) : String × String :=
  match dbId with
  | some n =>
    if n ≠ 0 then
      (s!"ml_models/load_predictor_db_{n}.pkl", s!"ml_models/scaler_db_{n}.pkl")
    else ("ml_models/load_predictor.pkl", "ml_models/scaler.pkl")
  | none => ("ml_models/load_predictor.pkl", "ml_models/scaler.pkl")

/-- Artifact path pair chosen by `train_anomaly_detector` (lines 232–238). -/
def anomalyModelPaths (dbId : Option Nat) : String × String :=
  match dbId with
  | some n =>
    if n ≠ 0 then
      (s!"ml_models/anomaly_detector_db_{n}.pkl",
       s!"ml_models/anomaly_scaler_db_{n}.pkl")
    else ("ml_models/anomaly_detector.pkl", "ml_models/anomaly_scaler.pkl")
  | none => ("ml_models/anomaly_detector.pkl", "ml_models/anomaly_scaler.pkl")

/-- Artifact path pair chosen by `train_query_time_predictor`
(lines 328–334). -/
def queryTimeModelPaths (dbId : Option Nat) : String × String :=
  match dbId with
  | some n =>
    if n ≠ 0 then
      (s!"ml_models/query_time_predictor_db_{n}.pkl",
       s!"ml_models/query_time_scaler_db_{n}.pkl")
    else
      ("ml_models/query_time_predictor.pkl", "ml_models/query_time_scaler.pkl")
  | none =>
    ("ml_models/query_time_predictor.pkl", "ml_models/query_time_scaler.pkl")

/-- `train_load_predictor` (`ml_tasks.py` lines 39–168): size gates, non-null
filter, then fit/dump (fitting is the out-of-scope black box; the result
records which artifact files `joblib.dump` wrote). -/
def train_load_predictor (dbId : Option Nat) (historical : List MetricRec) :
    TrainResult × List String :=
  if historical.length < MIN_TRAIN_SIZE then
    (.insufficient_data historical.length MIN_TRAIN_SIZE, [])
  else
    let valid := historical.filter loadRowValid
    if valid.length < MIN_TRAIN_SIZE then
      (.insufficient_valid_data valid.length historical.length, [])
    else
      let paths := loadModelPaths dbId
      (.success paths.1 paths.2, [paths.1, paths.2])

/-- `train_anomaly_detector` (`ml_tasks.py` lines 175–257). -/
def train_anomaly_detector (dbId : Option Nat) (historical : List MetricRec) :
    TrainResult × List String :=
  if historical.length < MIN_TRAIN_SIZE then
    (.insufficient_data historical.length MIN_TRAIN_SIZE, [])
  else
    let valid := historical.filter anomalyRowValid
    if valid.length < MIN_TRAIN_SIZE then
      (.insufficient_valid_data valid.length historical.length, [])
    else
      let paths := anomalyModelPaths dbId
      (.success paths.1 paths.2, [paths.1, paths.2])

/-- `train_query_time_predictor` (`ml_tasks.py` lines 260–356). -/
def train_query_time_predictor (dbId : Option Nat)
    (historical : List MetricRec) : TrainResult × List String :=
  if historical.length < MIN_TRAIN_SIZE then
    (.insufficient_data historical.length MIN_TRAIN_SIZE, [])
  else
    let valid := historical.filter queryTimeRowValid
    if valid.length < MIN_TRAIN_SIZE then
      (.insufficient_valid_data valid.length historical.length, [])
    else
      let paths := queryTimeModelPaths dbId
      (.success paths.1 paths.2, [paths.1, paths.2])

/-! ## Model serving (`performance_analyzer.py`, `OptimizedPerformanceAnalyzer`)

The estimators and scalers are black boxes: an `MLModel` carries the value its
`predict` returns on the prepared feature vector and its `decision_function`
score. Durable storage (`load_model` over the `ml_models/` directory) is a
function from path to `Option MLModel` (`none` = file absent or unreadable).
Wall time is `Nat` seconds; the Python freshness test
`(current_time - last_update).seconds < self.cache_ttl` reads the `seconds`
field of a `timedelta`, i.e. the elapsed time modulo 86400 seconds. -/

/-- A loaded estimator/scaler artifact, black-box per the spec's scope. -/
structure MLModel where
  predict : ℚ
  decision : ℚ
deriving DecidableEq

/-- The mutable state of `OptimizedPerformanceAnalyzer` (`__init__`, lines
20–24): `models_cache`, `last_cache_update` and `cache_ttl = 3600`. (The
separate `scalers_cache` dict is initialized but never used by the source;
scalers go through `models_cache` as well.) -/
structure AnalyzerState where
  models_cache : List (String × MLModel)
  last_cache_update : List (String × Nat)
  cache_ttl : Nat
deriving DecidableEq

/-- A freshly constructed analyzer (`OptimizedPerformanceAnalyzer()`). -/
def initAnalyzerState : AnalyzerState :=
  { models_cache := [], last_cache_update := [], cache_ttl := 3600 }

/-- `OptimizedPerformanceAnalyzer._get_cached_model` (lines 26–45): serve the
cached entry when the key has a recorded load time whose
`timedelta.seconds` component is below the TTL and the model is cached;
otherwise load from storage and, on success, cache the model with the current
time. -/
def getCachedModel (st : AnalyzerState) (storage : String → Option MLModel)
    (model_key model_path : String) (now : Nat) :
    Option MLModel × AnalyzerState :=
  let cachedHit : Option MLModel :=
    match lookupEntry st.last_cache_update model_key with
    | some t =>
      if (now - t) % 86400 < st.cache_ttl then
        lookupEntry st.models_cache model_key
      else none
    | none => none
  match cachedHit with
  | some m => (some m, st)
  | none =>
    match storage model_path with
    | some m =>
      (some m,
       { st with
         models_cache := setEntry st.models_cache model_key m
         last_cache_update := setEntry st.last_cache_update model_key now })
    | none => (none, st)

/-- `get_model_paths` (`ml_tasks.py` lines 459–480), restricted to the three
path pairs the serving functions consult. -/
structure ModelPaths where
  load_predictor : String
  load_scaler : String
  anomaly_detector : String
  anomaly_scaler : String
  query_time_predictor : String
  query_time_scaler : String

/-- The global artifact paths returned by `get_model_paths(None)`. -/
def globalModelPaths : ModelPaths :=
  { load_predictor := "ml_models/load_predictor.pkl"
    load_scaler := "ml_models/scaler.pkl"
    anomaly_detector := "ml_models/anomaly_detector.pkl"
    anomaly_scaler := "ml_models/anomaly_scaler.pkl"
    query_time_predictor := "ml_models/query_time_predictor.pkl"
    query_time_scaler := "ml_models/query_time_scaler.pkl" }

/-- `get_model_paths(database_id)`: target-specific paths when the id is
truthy, global paths otherwise. -/
def get_model_paths (dbId : Option Nat) : ModelPaths :=
  match dbId with
  | some n =>
    if n ≠ 0 then
      { load_predictor := s!"ml_models/load_predictor_db_{n}.pkl"
        load_scaler := s!"ml_models/scaler_db_{n}.pkl"
        anomaly_detector := s!"ml_models/anomaly_detector_db_{n}.pkl"
        anomaly_scaler := s!"ml_models/anomaly_scaler_db_{n}.pkl"
        query_time_predictor := s!"ml_models/query_time_predictor_db_{n}.pkl"
        query_time_scaler := s!"ml_models/query_time_scaler_db_{n}.pkl" }
    else globalModelPaths
  | none => globalModelPaths

/-- `_prepare_load_features` (lines 289–311): requires `cpu_usage`,
`memory_usage`, `disk_io`, `active_connections` non-null; the remaining
features fall back to defaults. -/
def prepare_load_features (m : MetricRec) : Option (List ℚ) :=
  match m.cpu_usage, m.memory_usage, m.disk_io, m.active_connections with
  | some cpu, some mem, some dio, some conns =>
    some [cpu, mem, dio, conns, m.cache_hit_ratio.getD 95,
          m.avg_query_time.getD 0, m.locks_count.getD 0,
          m.deadlocks_count.getD 0]
  | _, _, _, _ => none

/-- `_prepare_anomaly_features` (lines 313–334). -/
def prepare_anomaly_features (m : MetricRec) : Option (List ℚ) :=
  match m.cpu_usage, m.memory_usage, m.active_connections, m.avg_query_time with
  | some cpu, some mem, some conns, some aqt =>
    some [cpu, mem, conns, aqt, m.cache_hit_ratio.getD 95,
          m.locks_count.getD 0, m.deadlocks_count.getD 0]
  | _, _, _, _ => none

/-- `_prepare_query_time_features` (lines 336–355). -/
def prepare_query_time_features (m : MetricRec) : Option (List ℚ) :=
  match m.cpu_usage, m.memory_usage, m.active_connections with
  | some cpu, some mem, some conns =>
    some [cpu, mem, conns, m.cache_hit_ratio.getD 95, m.locks_count.getD 0]
  | _, _, _ => none

/-- Serving model-cache key, e.g. `f"load_predictor_{database_id}" if
database_id else "load_predictor_global"`. -/
def servingKey (base : String) (dbId : Option Nat) : String :=
  match dbId with
  | some n => if n ≠ 0 then s!"{base}_{n}" else s!"{base}_global"
  | none => s!"{base}_global"

/-- An `Alert` record as constructed by the analysis paths. `acknowledged`
defaults to false (src `Alert` model, line 39); the `is_resolved` flag is
referenced by `cleanup_old_data_task` but its column declaration is not under
src/ — modelled from the spec (§3: alerts are created open and only later
acknowledged/resolved). -/
structure AlertRec where
  database_id : Option Nat
  alert_type : String
  severity : String
  metric_name : String
  metric_value : ℚ
  threshold_value : ℚ
  acknowledged : Bool
  is_resolved : Bool
deriving DecidableEq

/-- An alert is open while neither acknowledged nor resolved. -/
def alertOpen (a : AlertRec) : Bool :=
  !a.acknowledged && !a.is_resolved

/-- The source's severity cutoff −0.5, as a normalized rational (so that the
kernel can evaluate comparisons against it). -/
def negHalf : ℚ := ⟨-1, 2, by decide, by decide⟩

/-- The source's `threshold_value` −0.1, as a normalized rational. -/
def negTenth : ℚ := ⟨-1, 10, by decide, by decide⟩

theorem negHalf_eq : negHalf = -(1/2 : ℚ) := by
  unfold negHalf
  rw [Rat.mk'_eq_divInt, Rat.divInt_eq_div]
  norm_num

theorem negTenth_eq : negTenth = -(1/10 : ℚ) := by
  unfold negTenth
  rw [Rat.mk'_eq_divInt, Rat.divInt_eq_div]
  norm_num

/-- `OptimizedPerformanceAnalyzer._create_anomaly_alert` (lines 369–400): the
alert appended on every anomalous detection — severity `high` when the score
is below −0.5, else `medium`; `metric_name` is always
`"performance_anomaly"`. No existing-alert check is performed. -/
def createAnomalyAlert (dbId : Option Nat) (score : ℚ) : AlertRec :=
  { database_id := dbId
    alert_type := "anomaly"
    severity := if score < negHalf then "high" else "medium"
    metric_name := "performance_anomaly"
    metric_value := score
    threshold_value := negTenth
    acknowledged := false
    is_resolved := false }

/-- `OptimizedPerformanceAnalyzer.predict_load` (lines 47–115): resolve model
and scaler through the cache (falling back to the global artifacts when the
target-specific model is absent and the id is truthy), then require
`MIN_PREDICTION_SIZE` historical samples, then prepare features, then predict.
`hist_count` is the value `_get_historical_metrics_count(database_id)`
returns. Every failure path yields `none` (the Python function returns
`None`, catching any exception). -/
def predict_load (st : AnalyzerState) (storage : String → Option MLModel)
    (dbId : Option Nat) (hist_count : Nat) (latest : MetricRec) (now : Nat) :
    Option ℚ × AnalyzerState :=
  let paths := get_model_paths dbId
  let mk := servingKey "load_predictor" dbId
  let sk := servingKey "load_scaler" dbId
  let (model, st1) := getCachedModel st storage mk ( ModelPaths.load_predictor paths) now
  let (scaler, st2) := getCachedModel st1 storage sk ( ModelPaths.load_scaler paths) now
  let (model, scaler, st3) :=
    if model.isNone && pyTruthy dbId then
      let gp := globalModelPaths
      let (m, sa) := getCachedModel st2 storage "load_predictor_global"
        ( ModelPaths.load_predictor gp) now
      let (s, sb) := getCachedModel sa storage "load_scaler_global"
        ( ModelPaths.load_scaler gp) now
      (m, s, sb)
    else (model, scaler, st2)
  match model, scaler with
  | some m, some _ =>
    if hist_count < MIN_PREDICTION_SIZE then (none, st3)
    else
      match prepare_load_features latest with
      | none => (none, st3)
      | some _ => (some m.predict, st3)
  | _, _ => (none, st3)

/-- Outcome of `detect_anomalies`: the dict shapes returned by the source
(`model_not_found` / `invalid_features` / a full result with the anomaly flag,
the decision score, and `features_analyzed`; the caught-exception dict is
`error_result`). -/
inductive AnomalyOutcome where
  | model_not_found : AnomalyOutcome
  | invalid_features : AnomalyOutcome
  | result (anomaly_detected : Bool) (anomaly_score : ℚ)
      (features_analyzed : Nat) : AnomalyOutcome
  | error_result : AnomalyOutcome
deriving DecidableEq

/-- Serving stage of `detect_anomalies` (lines 136–169), applied once model
and scaler have been resolved: prepare features, score the sample, and on an
anomalous prediction append the `_create_anomaly_alert` record. -/
def anomalyServe (model scaler : Option MLModel) (st3 : AnalyzerState)
    (dbId : Option Nat) (latest : MetricRec) (alerts : List AlertRec) :
    AnomalyOutcome × AnalyzerState × List AlertRec :=
  match model, scaler with
  | some m, some _ =>
    (match prepare_anomaly_features latest with
     | none => (.invalid_features, st3, alerts)
     | some feats =>
       let score := m.decision
       if m.predict == -1 then
         (.result true score feats.length, st3,
          alerts ++ [createAnomalyAlert dbId score])
       else
         (.result false score feats.length, st3, alerts))
  | _, _ => (.model_not_found, st3, alerts)

/-- `OptimizedPerformanceAnalyzer.detect_anomalies` (lines 117–173) together
with its `_create_anomaly_alert` side effect: resolve model and scaler with
global fallback, then serve (`anomalyServe`). `hist_count` is the target's
stored-sample count; the source performs no minimum-history check in this
function, so the argument is never consulted. -/
def detect_anomalies (st : AnalyzerState) (storage : String → Option MLModel)
    (dbId : Option Nat) (hist_count : Nat) (latest : MetricRec) (now : Nat)
    (alerts : List AlertRec) :
    AnomalyOutcome × AnalyzerState × List AlertRec :=
  let paths := get_model_paths dbId
  let mk := servingKey "anomaly_detector" dbId
  let sk := servingKey "anomaly_scaler" dbId
  let (model, st1) := getCachedModel st storage mk
    ( ModelPaths.anomaly_detector paths) now
  let (scaler, st2) := getCachedModel st1 storage sk
    ( ModelPaths.anomaly_scaler paths) now
  let (model, scaler, st3) :=
    if model.isNone && pyTruthy dbId then
      let gp := globalModelPaths
      let (m, sa) := getCachedModel st2 storage "anomaly_detector_global"
        ( ModelPaths.anomaly_detector gp) now
      let (s, sb) := getCachedModel sa storage "anomaly_scaler_global"
        ( ModelPaths.anomaly_scaler gp) now
      (m, s, sb)
    else (model, scaler, st2)
  anomalyServe model scaler st3 dbId latest alerts

/-- `OptimizedPerformanceAnalyzer.predict_query_time` (lines 175–218): same
resolution scheme as `predict_load` but with no minimum-history gate
(`hist_count` is never consulted by the source function). -/
def predict_query_time (st : AnalyzerState)
    (storage : String → Option MLModel) (dbId : Option Nat) (hist_count : Nat)
    (latest : MetricRec) (now : Nat) : Option ℚ × AnalyzerState :=
  let paths := get_model_paths dbId
  let mk := servingKey "query_time_predictor" dbId
  let sk := servingKey "query_time_scaler" dbId
  let (model, st1) := getCachedModel st storage mk
    ( ModelPaths.query_time_predictor paths) now
  let (scaler, st2) := getCachedModel st1 storage sk
    ( ModelPaths.query_time_scaler paths) now
  let (model, scaler, st3) :=
    if model.isNone && pyTruthy dbId then
      let gp := globalModelPaths
      let (m, sa) := getCachedModel st2 storage "query_time_predictor_global"
        ( ModelPaths.query_time_predictor gp) now
      let (s, sb) := getCachedModel sa storage "query_time_scaler_global"
        ( ModelPaths.query_time_scaler gp) now
      (m, s, sb)
    else (model, scaler, st2)
  match model, scaler with
  | some m, some _ =>
    (match prepare_query_time_features latest with
     | none => (none, st3)
     | some _ => (some m.predict, st3))
  | _, _ => (none, st3)

/-! ## Threshold analysis (spec-modelled)

`analyze_performance_task` (`celery_tasks.py` line 292) calls
`PerformanceAnalyzer.analyze_metrics_and_generate_alerts`, but no definition
of that class or method exists under src/ (the module only defines
`OptimizedPerformanceAnalyzer`). The threshold-alert creation is therefore
modelled from the spec. -/

/-- Two alerts clash when both are open for the same (target, metric-name)
pair. -/
def alertClash (a b : AlertRec) : Bool :=
  alertOpen a && alertOpen b && a.database_id == b.database_id &&
  a.metric_name == b.metric_name

/-- Whether the alert store contains two simultaneously-open alerts for the
same (target, metric-name) pair. -/
def hasOpenDup : List AlertRec → Bool
  | [] => false
  | a :: rest => rest.any (alertClash a) || hasOpenDup rest

/-- The threshold-breach alert for one metric name (severity reflecting breach
magnitude is irrelevant to the claims; the record is created open). -/
def mkThresholdAlert (dbId : Nat) (metric : String) (value threshold : ℚ) :
    AlertRec :=
  { database_id := some dbId
    alert_type := "threshold"
    severity := "high"
    metric_name := metric
    metric_value := value
    threshold_value := threshold
    acknowledged := false
    is_resolved := false }

/-- Modelled from the spec: `PerformanceAnalyzer.analyze_metrics_and_generate_alerts`
is imported and invoked by `analyze_performance_task` but its definition is
not under src/. Spec §4.5: "for each breached metric, creates at most one
open (unacknowledged, unresolved) Alert per metric-name per target —
re-breaching an already-open alert does not duplicate it." Each breached
metric inserts a fresh open alert only when no open alert for the same
(target, metric-name) pair already exists. -/
def analyze_metrics_and_generate_alerts (dbId : Nat)
    (breached : List (String × ℚ × ℚ)) (alerts : List AlertRec) :
    List AlertRec :=
  breached.foldl
    (fun acc br =>
      if acc.any (fun a =>
          alertOpen a && a.database_id == some dbId &&
          a.metric_name == br.1) then
        acc
      else acc ++ [mkThresholdAlert dbId br.1 br.2.1 br.2.2])
    alerts

/-! ## Theorems settling the claims -/

/-- C2: `performance_category` is a pure function of `mean_time` alone:
`mean_time > 1000` yields critical, `500 < mean_time ≤ 1000` yields slow,
`100 < mean_time ≤ 500` yields normal, `mean_time ≤ 100` yields fast;
the boundary inputs 1000, 500, 100 fall in the lower band; and the update
path and the insert path of query-stat reconciliation classify identically. -/
theorem C2_performance_category_bands (t : ℚ) :
    (t > 1000 → performanceCategoryUpdate t = "critical") ∧
    (500 < t ∧ t ≤ 1000 → performanceCategoryUpdate t = "slow") ∧
    (100 < t ∧ t ≤ 500 → performanceCategoryUpdate t = "normal") ∧
    (t ≤ 100 → performanceCategoryUpdate t = "fast") ∧
    performanceCategoryUpdate 1000 = "slow" ∧
    performanceCategoryUpdate 500 = "normal" ∧
    performanceCategoryUpdate 100 = "fast" ∧
    performanceCategoryUpdate t = performanceCategoryInsert t := by
  unfold performanceCategoryUpdate performanceCategoryInsert
  refine ⟨?_, ?_, ?_, ?_, by norm_num, by norm_num, by norm_num, rfl⟩
  · intro h
    rw [if_pos h]
  · rintro ⟨h1, h2⟩
    rw [if_neg (by linarith), if_pos h1]
  · rintro ⟨h1, h2⟩
    rw [if_neg (by linarith), if_neg (by linarith), if_pos h1]
  · intro h
    rw [if_neg (by linarith), if_neg (by linarith), if_neg (by linarith)]

/-- Witness for C2 at the spec's sample inputs 1200, 600, 150, 50. -/
theorem C2_performance_category_bands_witness :
    performanceCategoryUpdate 1200 = "critical" ∧
    performanceCategoryUpdate 600 = "slow" ∧
    performanceCategoryUpdate 150 = "normal" ∧
    performanceCategoryUpdate 50 = "fast" :=
  ⟨(C2_performance_category_bands 1200).1 (by norm_num),
   (C2_performance_category_bands 600).2.1 ⟨by norm_num, by norm_num⟩,
   (C2_performance_category_bands 150).2.2.1 ⟨by norm_num, by norm_num⟩,
   (C2_performance_category_bands 50).2.2.2.1 (by norm_num)⟩

/-- C3: each of the three training tasks, when fewer than 50 valid feature
rows are available (fewer than 50 historical samples, or fewer than 50 rows
surviving its non-null filter), returns an explicit insufficient-data result
and writes no model or scaler artifact. -/
theorem C3_training_insufficient_no_artifact (dbId : Option Nat)
    (hist : List MetricRec) :
    ((hist.filter loadRowValid).length < MIN_TRAIN_SIZE →
      (train_load_predictor dbId hist).1.insufficient = true ∧
      (train_load_predictor dbId hist).2 = []) ∧
    ((hist.filter anomalyRowValid).length < MIN_TRAIN_SIZE →
      (train_anomaly_detector dbId hist).1.insufficient = true ∧
      (train_anomaly_detector dbId hist).2 = []) ∧
    ((hist.filter queryTimeRowValid).length < MIN_TRAIN_SIZE →
      (train_query_time_predictor dbId hist).1.insufficient = true ∧
      (train_query_time_predictor dbId hist).2 = []) := by
  refine ⟨fun hv => ?_, fun hv => ?_, fun hv => ?_⟩ <;>
  · first
    | unfold train_load_predictor
    | unfold train_anomaly_detector
    | unfold train_query_time_predictor
    by_cases hl : hist.length < MIN_TRAIN_SIZE
    · simp [hl, TrainResult.insufficient]
    · simp [hl, hv, TrainResult.insufficient]

/-- Witness for C3: an empty history (0 valid rows for every filter). -/
theorem C3_training_insufficient_no_artifact_witness :
    (train_load_predictor none []).1.insufficient = true ∧
    (train_load_predictor none []).2 = [] ∧
    (train_anomaly_detector none []).1.insufficient = true ∧
    (train_anomaly_detector none []).2 = [] ∧
    (train_query_time_predictor none []).1.insufficient = true ∧
    (train_query_time_predictor none []).2 = [] := by
  have h := C3_training_insufficient_no_artifact none []
  have h1 := h.1 (by decide)
  have h2 := h.2.1 (by decide)
  have h3 := h.2.2 (by decide)
  exact ⟨h1.1, h1.2, h2.1, h2.2, h3.1, h3.2⟩

/-- C10: `create_connection_pool` is atomic with respect to the pool map and
never raises: when the underlying pool constructor fails it returns `False`
with the map exactly as before; when it succeeds it returns `True` and the
only change is the entry for that target id. -/
theorem C10_pool_creation_atomic (pools : List (Nat × Pool)) (dbId : Nat)
    (p : Pool) :
    create_connection_pool pools dbId none = (false, pools) ∧
    (create_connection_pool pools dbId (some p)).1 = true ∧
    lookupEntry (create_connection_pool pools dbId (some p)).2 dbId = some p ∧
    (∀ j, j ≠ dbId →
      lookupEntry (create_connection_pool pools dbId (some p)).2 j =
        lookupEntry pools j) := by
  refine ⟨rfl, rfl, ?_, ?_⟩
  · exact lookupEntry_setEntry_self pools dbId p
  · intro j hj
    exact lookupEntry_setEntry_ne pools dbId j p hj

/-- Witness for C10 at a concrete map, target and unrelated key. -/
theorem C10_pool_creation_atomic_witness :
    create_connection_pool [(1, Pool.mk 7)] 2 none = (false, [(1, Pool.mk 7)]) ∧
    (create_connection_pool [(1, Pool.mk 7)] 2 (some (Pool.mk 9))).1 = true ∧
    lookupEntry (create_connection_pool [(1, Pool.mk 7)] 2
      (some (Pool.mk 9))).2 2 = some (Pool.mk 9) ∧
    lookupEntry (create_connection_pool [(1, Pool.mk 7)] 2
      (some (Pool.mk 9))).2 1 = lookupEntry [(1, Pool.mk 7)] 1 := by
  have h := C10_pool_creation_atomic [(1, Pool.mk 7)] 2 (Pool.mk 9)
  exact ⟨h.1, h.2.1, h.2.2.1, h.2.2.2 1 (by decide)⟩

/-- C5 counterexample: at the pool-manager level, invoking
`create_connection_pool` for a target that already has a pool replaces the
existing pool object rather than reusing it — the map entry changes. -/
theorem C5_manager_replaces_pool :
    (create_connection_pool [(1, Pool.mk 0)] 1 (some (Pool.mk 1))).1 = true ∧
    lookupEntry (create_connection_pool [(1, Pool.mk 0)] 1
      (some (Pool.mk 1))).2 1 = some (Pool.mk 1) ∧
    lookupEntry (create_connection_pool [(1, Pool.mk 0)] 1
      (some (Pool.mk 1))).2 1 ≠ lookupEntry [(1, Pool.mk 0)] 1 := by
  refine ⟨rfl, by decide, by decide⟩

/-- C5 (amended): pool reuse is enforced one level
up — `collect_metrics_task` only invokes pool creation when no pool exists
for the target, so at the task level an existing pool is reused and the map
is unchanged; `create_connection_pool` itself overwrites the entry on
success. -/
theorem C5_reuse_enforced_by_caller (pools : List (Nat × Pool)) (dbId : Nat)
    (constructed : Option Pool) (h : (lookupEntry pools dbId).isSome) :
    ensure_connection_pool pools dbId constructed = (true, pools) ∧
    (∀ p, lookupEntry (create_connection_pool pools dbId (some p)).2 dbId =
      some p) := by
  refine ⟨?_, fun p => lookupEntry_setEntry_self pools dbId p⟩
  unfold ensure_connection_pool
  rw [if_pos h]

/-- Witness for the amended C5 at a concrete map with an existing pool. -/
theorem C5_reuse_enforced_by_caller_witness :
    ensure_connection_pool [(1, Pool.mk 0)] 1 (some (Pool.mk 1)) =
      (true, [(1, Pool.mk 0)]) ∧
    lookupEntry (create_connection_pool [(1, Pool.mk 0)] 1
      (some (Pool.mk 1))).2 1 = some (Pool.mk 1) := by
  have h := C5_reuse_enforced_by_caller [(1, Pool.mk 0)] 1
    (some (Pool.mk 1)) (by decide)
  exact ⟨h.1, h.2 (Pool.mk 1)⟩

theorem toDigitsCore_length_le (b : Nat) :
    ∀ (f n : Nat) (l : List Char), l.length ≤ (Nat.toDigitsCore b f n l).length := by
  intro f
  induction f with
  | zero => intro n l; simp [Nat.toDigitsCore]
  | succ f ih =>
    intro n l
    simp only [Nat.toDigitsCore]
    split
    · simp
    · exact le_trans (by simp) (ih (n / b) (Nat.digitChar (n % b) :: l))

theorem one_le_toDigitsCore_succ_length (b f n : Nat) (l : List Char) :
    l.length + 1 ≤ (Nat.toDigitsCore b (f+1) n l).length := by
  simp only [Nat.toDigitsCore]
  split
  · simp
  · exact le_trans (by simp)
      (toDigitsCore_length_le b f (n / b) (Nat.digitChar (n % b) :: l))

theorem nat_repr_ne_empty (n : Nat) : Nat.repr n ≠ "" := by
  intro hc
  have h := one_le_toDigitsCore_succ_length 10 n n []
  simp only [List.length_nil, Nat.zero_add] at h
  rw [Nat.repr, Nat.toDigits] at hc
  have h2 := congrArg String.length hc
  rw [List.length_asString] at h2
  rw [show ("" : String).length = 0 from rfl] at h2
  omega

theorem int_toString_ne_empty (i : Int) : toString i ≠ "" := by
  cases i with
  | ofNat m => exact nat_repr_ne_empty m
  | negSucc m =>
    intro hc
    have hc' : ("-" ++ toString (m+1) : String) = "" := hc
    have h2 := congrArg String.length hc'
    rw [String.length_append] at h2
    have hl : ("-" : String).length = 1 := rfl
    have he : ("" : String).length = 0 := rfl
    omega

theorem rat_toString_ne_empty (q : ℚ) : toString q ≠ "" := by
  have hq : toString q =
      if q.den = 1 then toString q.num else s!"{q.num}/{q.den}" := rfl
  rw [hq]
  split
  · exact int_toString_ne_empty q.num
  · intro hc
    have h2 := congrArg String.length hc
    rw [String.length_append, String.length_append, String.length_append,
      String.length_append] at h2
    have hs : (toString "/" : String).length = 1 := rfl
    have he : ("" : String).length = 0 := rfl
    omega

/-- Serialization never produces an empty byte string, so the truthiness
guard `if value:` in `CacheService.get` passes for every stored value. -/
theorem dumps_ne_empty (v : JVal) : dumps v ≠ "" := by
  cases v with
  | jbool b => cases b <;> simp [dumps]
  | jnum q => exact rat_toString_ne_empty q
  | jstr s =>
    simp only [dumps]
    intro hc
    have h2 := congrArg String.length hc
    rw [String.length_append, String.length_append] at h2
    have hq : ("\"" : String).length = 1 := rfl
    have he : ("" : String).length = 0 := rfl
    omega
  | _ => simp [dumps]

/-- C9 counterexample: a legitimately cached falsy value is returned intact by
`CacheService.get` — `set(k, 0)` followed by `get(k)` yields `0`, not `None`,
because the truthiness guard in `get` tests the raw serialized bytes (`"0"`,
non-empty) rather than the decoded value. -/
theorem C9_get_returns_falsy :
    cacheGet (cacheSet [] "k" (.jnum 0)) "k" = .jnum 0 ∧
    jTruthy (.jnum 0) = false ∧
    (JVal.jnum 0) ≠ .jnull := by
  refine ⟨?_, rfl, fun h => JVal.noConfusion h⟩
  have hs := lookupEntry_setEntry_self ([] : List (String × JVal)) "k" (.jnum 0)
  unfold cacheGet cacheSet
  rw [hs]
  simp [dumps_ne_empty]

/-- C9 (amended): `get` after `set` is the identity for every
JSON-round-trippable value, falsy or not (the guard in `get` tests the
serialized bytes, which are never empty); only a cached `None` is
indistinguishable from a miss, since `get` returns `None` (= JSON null) on a
miss; and the re-execution of the wrapped function for falsy cached values
happens at the `cache_response` decorator, which tests truthiness of the
decoded value: it re-runs the function for every falsy cached value and
serves the cached value without re-running for truthy ones. -/
theorem C9_cache_roundtrip_amended (store : List (String × JVal))
    (key : String) (v : JVal) (f : Unit → JVal) :
    cacheGet (cacheSet store key v) key = v ∧
    cacheGet [] key = .jnull ∧
    (jTruthy v = false →
      (cacheResponse (cacheSet store key v) key f).2.2 = true) ∧
    (jTruthy v = true →
      cacheResponse (cacheSet store key v) key f =
        (v, cacheSet store key v, false)) := by
  have hget : cacheGet (cacheSet store key v) key = v := by
    have hs := lookupEntry_setEntry_self store key v
    unfold cacheGet cacheSet
    rw [hs]
    simp [dumps_ne_empty]
  refine ⟨hget, by simp [cacheGet, lookupEntry], fun hf => ?_, fun ht => ?_⟩
  · unfold cacheResponse
    rw [hget]
    simp [hf]
  · unfold cacheResponse
    rw [hget]
    simp [ht]

/-- Witness for C9 (amended) at concrete falsy and truthy cached values. -/
theorem C9_cache_roundtrip_amended_witness :
    cacheGet (cacheSet [] "k" (.jnum 0)) "k" = .jnum 0 ∧
    (cacheResponse (cacheSet [] "k" (.jnum 0)) "k"
      (fun _ => .jstr "recomputed")).2.2 = true ∧
    cacheResponse (cacheSet [] "k" (.jstr "hit")) "k"
      (fun _ => .jstr "recomputed") =
      (.jstr "hit", cacheSet [] "k" (.jstr "hit"), false) := by
  have h0 := C9_cache_roundtrip_amended [] "k" (.jnum 0)
    (fun _ => .jstr "recomputed")
  have h1 := C9_cache_roundtrip_amended [] "k" (.jstr "hit")
    (fun _ => .jstr "recomputed")
  exact ⟨h0.1, h0.2.2.1 rfl, h1.2.2.2 (by simp [jTruthy])⟩

theorem getCachedModel_init (k p : String) (now : Nat) :
    getCachedModel initAnalyzerState (fun _ => none) k p now =
      (none, initAnalyzerState) := rfl

/-- C7: for a target with no cached model, no target-specific persisted model
and no global model, `predict_load`, `detect_anomalies` and
`predict_query_time` return the respective unavailable result (`None` /
`anomaly_detected: false` with reason `model_not_found`) without error, and
create no alert. -/
theorem C7_no_model_returns_unavailable (dbId : Option Nat) (hist : Nat)
    (latest : MetricRec) (now : Nat) (alerts : List AlertRec) :
    predict_load initAnalyzerState (fun _ => none) dbId hist latest now =
      (none, initAnalyzerState) ∧
    detect_anomalies initAnalyzerState (fun _ => none) dbId hist latest now
      alerts = (.model_not_found, initAnalyzerState, alerts) ∧
    predict_query_time initAnalyzerState (fun _ => none) dbId hist latest
      now = (none, initAnalyzerState) := by
  refine ⟨?_, ?_, ?_⟩ <;>
  · first
    | unfold predict_load
    | unfold detect_anomalies
    | unfold predict_query_time
    cases hpt : pyTruthy dbId <;>
      simp [hpt, getCachedModel_init, anomalyServe]

/-- Environment for the C4 evaluation: a model cached at time 0 under key
`"k"`, while durable storage at the corresponding path holds a different
(retrained) model. -/
def c4_cached : MLModel := { predict := 1, decision := 0 }

/-- The newer model sitting on disk in the C4 evaluation. -/
def c4_stored : MLModel := { predict := 2, decision := 0 }

/-- Analyzer state for C4: `"k"` cached at time 0 with the default 3600 s TTL. -/
def c4_state : AnalyzerState :=
  { models_cache := [("k", c4_cached)]
    last_cache_update := [("k", 0)]
    cache_ttl := 3600 }

/-- Storage for C4: the path `"p"` resolves to the newer model. -/
def c4_storage : String → Option MLModel :=
  fun p => if p = "p" then some c4_stored else none

/-- C4: the model-cache freshness test reads `timedelta.seconds` — the
elapsed time modulo 24 h — instead of the total elapsed time. Within the
first day the 3600 s TTL behaves as specified (served at `T+3599`, reloaded
from storage at `T+3601`), but at `T + 86400` and `T + 86401` (one day, and
one day plus a second, after the load) the stale cached model is served again
instead of being reloaded, contradicting the 1-hour expiry the code's own
comment (`cache_ttl = 3600  # 1 час кэширования`) and the spec prescribe. -/
theorem C4_ttl_wraps_after_one_day :
    getCachedModel c4_state c4_storage "k" "p" 3599 =
      (some c4_cached, c4_state) ∧
    (getCachedModel c4_state c4_storage "k" "p" 3601).1 = some c4_stored ∧
    getCachedModel c4_state c4_storage "k" "p" 86400 =
      (some c4_cached, c4_state) ∧
    getCachedModel c4_state c4_storage "k" "p" 86401 =
      (some c4_cached, c4_state) := by
  refine ⟨?_, ?_, ?_, ?_⟩ <;> decide

/-- Storage for the C6 evaluation: global anomaly-detector and
query-time-predictor artifacts (with scalers) are present; the anomaly model
flags the sample as an outlier. -/
def c6_storage : String → Option MLModel := fun p =>
  if p = "ml_models/anomaly_detector.pkl" then
    some { predict := -1, decision := -1 }
  else if p = "ml_models/anomaly_scaler.pkl" then
    some { predict := 0, decision := 0 }
  else if p = "ml_models/query_time_predictor.pkl" then
    some { predict := 42, decision := 0 }
  else if p = "ml_models/query_time_scaler.pkl" then
    some { predict := 0, decision := 0 }
  else none

/-- A metric sample with every field populated, used in the C6 evaluation. -/
def c6_metrics : MetricRec :=
  { cpu_usage := some 50, memory_usage := some 60, disk_io := some 10
    active_connections := some 5, cache_hit_ratio := some 99
    avg_query_time := some 12, locks_count := some 3
    deadlocks_count := some 0 }

/-- C6 counterexample: with only 5 stored samples (below the 10-sample
minimum), `detect_anomalies` still produces a full anomaly result and
`predict_query_time` still produces a prediction — neither skips with an
insufficient-history result, so the 10-sample precondition does not hold for
each of the three serving operations. -/
theorem C6_no_history_gate_for_two_ops :
    (detect_anomalies initAnalyzerState c6_storage none 5 c6_metrics 0 []).1 =
      .result true (-1) 7 ∧
    (predict_query_time initAnalyzerState c6_storage none 5 c6_metrics 0).1 =
      some 42 := by
  refine ⟨?_, ?_⟩ <;> decide

/-- C6 (amended): only `predict_load` enforces the `MIN_PREDICTION_SIZE = 10`
minimum — with fewer than 10 historical samples it returns `None` in every
environment — while `detect_anomalies` and `predict_query_time` never consult
the historical-sample count at all: their results are identical for every
value of it. -/
theorem C6_only_predict_load_gated (st : AnalyzerState)
    (storage : String → Option MLModel) (dbId : Option Nat) (hist : Nat)
    (latest : MetricRec) (now : Nat) (alerts : List AlertRec)
    (h : hist < MIN_PREDICTION_SIZE) :
    (predict_load st storage dbId hist latest now).1 = none ∧
    (∀ hist2, detect_anomalies st storage dbId hist latest now alerts =
      detect_anomalies st storage dbId hist2 latest now alerts) ∧
    (∀ hist2, predict_query_time st storage dbId hist latest now =
      predict_query_time st storage dbId hist2 latest now) := by
  refine ⟨?_, fun _ => rfl, fun _ => rfl⟩
  unfold predict_load
  repeat' split
  all_goals try simp_all
  all_goals repeat' split
  all_goals rfl

/-- Witness for C6 (amended): 5 samples in the concrete C6 environment. -/
theorem C6_only_predict_load_gated_witness :
    (predict_load initAnalyzerState c6_storage none 5 c6_metrics 0).1 =
      none ∧
    detect_anomalies initAnalyzerState c6_storage none 5 c6_metrics 0 [] =
      detect_anomalies initAnalyzerState c6_storage none 99 c6_metrics 0 [] := by
  have h := C6_only_predict_load_gated initAnalyzerState c6_storage none 5
    c6_metrics 0 [] (by decide)
  exact ⟨h.1, h.2.1 99⟩

theorem updateFirst_append_singleton {α : Type} (p : α → Bool) (f : α → α)
    (l : List α) (x : α) (h : ∀ a ∈ l, p a = false) (hx : p x = true) :
    updateFirst p f (l ++ [x]) = l ++ [f x] := by
  induction l with
  | nil => simp [updateFirst, hx]
  | cons a rest ih =>
    simp only [List.cons_append, updateFirst, h a (List.mem_cons_self a rest),
      Bool.false_eq_true, if_false, List.cons.injEq, true_and]
    exact ih (fun b hb => h b (List.mem_cons_of_mem a hb))

theorem filter_append_singleton_of_no_match {α : Type} (p : α → Bool)
    (l : List α) (x : α) (h : ∀ a ∈ l, p a = false) (hx : p x = true) :
    (l ++ [x]).filter p = [x] := by
  induction l with
  | nil => simp [List.filter, hx]
  | cons a rest ih =>
    simp only [List.cons_append, List.filter, h a (List.mem_cons_self a rest)]
    exact ih (fun b hb => h b (List.mem_cons_of_mem a hb))

/-- C8: query-stat reconciliation is last-write-wins per query hash — when
two collection passes each return a row with the same hash for a target with
no prior record for that hash, after the second pass there is exactly one
`QueryStatistic` record for the (target, hash) pair; its call and timing
counters equal the second pass's values (overwritten, never summed), its
`performance_category` is recomputed from the latest `mean_time`, and its
`last_seen` is the second pass's collection time. -/
theorem C8_last_write_wins (dbId t1 t2 : Nat) (r1 r2 : StatRow)
    (store : List QueryStatRec) (hh : r1.query_hash = r2.query_hash)
    (habs : ∀ q ∈ store, statMatches dbId r2.query_hash q = false) :
    (collectQueryStatisticsPass dbId t2
        (collectQueryStatisticsPass dbId t1 store [r1]) [r2]).filter
        (statMatches dbId r2.query_hash) =
      [applyStatRow t2 r2 (newStatRec dbId t1 r1)] ∧
    (applyStatRow t2 r2 (newStatRec dbId t1 r1)).calls = r2.calls ∧
    (applyStatRow t2 r2 (newStatRec dbId t1 r1)).total_time = r2.total_time ∧
    (applyStatRow t2 r2 (newStatRec dbId t1 r1)).mean_time = r2.mean_time ∧
    (applyStatRow t2 r2 (newStatRec dbId t1 r1)).performance_category =
      performanceCategoryUpdate r2.mean_time ∧
    (applyStatRow t2 r2 (newStatRec dbId t1 r1)).last_seen = t2 := by
  refine ⟨?_, rfl, rfl, rfl, rfl, rfl⟩
  have hmatch1 : statMatches dbId r2.query_hash (newStatRec dbId t1 r1) = true := by
    simp [statMatches, newStatRec, hh]
  have hany1 : store.any (statMatches dbId r1.query_hash) = false := by
    rw [hh]
    rw [List.any_eq_false]
    intro q hq
    simp [habs q hq]
  have hpass1 : collectQueryStatisticsPass dbId t1 store [r1] =
      store ++ [newStatRec dbId t1 r1] := by
    simp [collectQueryStatisticsPass, reconcileRow, hany1]
  rw [hpass1]
  have hany2 : (store ++ [newStatRec dbId t1 r1]).any
      (statMatches dbId r2.query_hash) = true := by
    rw [List.any_append]
    simp [hmatch1]
  have hpass2 : collectQueryStatisticsPass dbId t2
      (store ++ [newStatRec dbId t1 r1]) [r2] =
      store ++ [applyStatRow t2 r2 (newStatRec dbId t1 r1)] := by
    simp only [collectQueryStatisticsPass, List.foldl_cons, List.foldl_nil,
      reconcileRow, hany2, if_true]
    exact updateFirst_append_singleton _ _ store _
      (fun q hq => habs q hq) hmatch1
  rw [hpass2]
  apply filter_append_singleton_of_no_match _ store _
    (fun q hq => habs q hq)
  simpa [statMatches, applyStatRow] using hmatch1

/-- First-pass row for the C8 witness: `mean_time = 40`. -/
def c8_r1 : StatRow :=
  { query_hash := "h", query_text := "SELECT  FROM t", query_type := "SELECT"
    calls := 10, total_time := 400, mean_time := 40, min_time := 1
    max_time := 90, rows_returned := 5, shared_blks_hit := 0
    shared_blks_read := 0, shared_blks_written := 0 }

/-- Second-pass row for the C8 witness: same hash, `mean_time = 1500`. -/
def c8_r2 : StatRow :=
  { query_hash := "h", query_text := "SELECT  FROM t", query_type := "SELECT"
    calls := 12, total_time := 18000, mean_time := 1500, min_time := 1
    max_time := 3000, rows_returned := 5, shared_blks_hit := 0
    shared_blks_read := 0, shared_blks_written := 0 }

/-- Witness for C8 at the spec's scenario (mean_time 40 then 1500): one
record, category critical, calls reflecting the latest row (12, not 22). -/
theorem C8_last_write_wins_witness :
    (collectQueryStatisticsPass 1 20
        (collectQueryStatisticsPass 1 10 [] [c8_r1]) [c8_r2]).filter
        (statMatches 1 "h") =
      [applyStatRow 20 c8_r2 (newStatRec 1 10 c8_r1)] ∧
    (applyStatRow 20 c8_r2 (newStatRec 1 10 c8_r1)).performance_category =
      "critical" ∧
    (applyStatRow 20 c8_r2 (newStatRec 1 10 c8_r1)).calls = 12 ∧
    (applyStatRow 20 c8_r2 (newStatRec 1 10 c8_r1)).last_seen = 20 := by
  have h := C8_last_write_wins 1 10 20 c8_r1 c8_r2 [] rfl (by simp)
  refine ⟨h.1, ?_, ?_, h.2.2.2.2.2⟩
  · rw [h.2.2.2.2.1]
    decide
  · rw [h.2.1]
    rfl

theorem hasOpenDup_append_singleton (l : List AlertRec) (x : AlertRec)
    (hl : hasOpenDup l = false) (hx : ∀ a ∈ l, alertClash a x = false) :
    hasOpenDup (l ++ [x]) = false := by
  induction l with
  | nil => simp [hasOpenDup]
  | cons a rest ih =>
    simp only [hasOpenDup, Bool.or_eq_false_iff] at hl
    simp only [List.cons_append, hasOpenDup, Bool.or_eq_false_iff]
    refine ⟨?_, ih hl.2 (fun b hb => hx b (List.mem_cons_of_mem a hb))⟩
    show (rest ++ [x]).any (alertClash a) = false
    rw [List.any_append]
    simp [hl.1, hx a (List.mem_cons_self a rest)]

theorem analyze_metrics_preserves_no_dup (dbId : Nat)
    (breached : List (String × ℚ × ℚ)) :
    ∀ alerts, hasOpenDup alerts = false →
      hasOpenDup (analyze_metrics_and_generate_alerts dbId breached alerts) =
        false := by
  induction breached with
  | nil =>
    intro alerts h
    simpa [analyze_metrics_and_generate_alerts] using h
  | cons br rest ih =>
    intro alerts h
    simp only [analyze_metrics_and_generate_alerts, List.foldl_cons]
    have ih' := ih
    simp only [analyze_metrics_and_generate_alerts] at ih'
    by_cases hg : alerts.any (fun a =>
        alertOpen a && a.database_id == some dbId &&
        a.metric_name == br.1) = true
    · rw [if_pos hg]
      exact ih' alerts h
    · rw [if_neg hg]
      apply ih'
      apply hasOpenDup_append_singleton alerts _ h
      intro a ha
      have hgf : alerts.any (fun a =>
          alertOpen a && a.database_id == some dbId &&
          a.metric_name == br.1) = false := Bool.eq_false_iff.mpr hg
      rw [List.any_eq_false] at hgf
      have hga' : (alertOpen a && (a.database_id == some dbId) &&
          (a.metric_name == br.1)) = false :=
        Bool.eq_false_iff.mpr (hgf a ha)
      have hx : alertClash a (mkThresholdAlert dbId br.1 br.2.1 br.2.2) =
          (alertOpen a && true && (a.database_id == some dbId) &&
            (a.metric_name == br.1)) := rfl
      rw [hx, Bool.and_true]
      exact hga'

theorem anomalyServe_appends_one_alert (model scaler : Option MLModel)
    (st3 : AnalyzerState) (dbId : Option Nat) (latest : MetricRec)
    (alerts : List AlertRec) (s : ℚ) (f : Nat)
    (h : (anomalyServe model scaler st3 dbId latest alerts).1 =
      .result true s f) :
    (anomalyServe model scaler st3 dbId latest alerts).2.2 =
      alerts ++ [createAnomalyAlert dbId s] := by
  unfold anomalyServe at h ⊢
  repeat' split at h
  all_goals simp_all

theorem detect_anomalies_appends_one_alert (st : AnalyzerState)
    (storage : String → Option MLModel) (dbId : Option Nat) (hist : Nat)
    (latest : MetricRec) (now : Nat) (alerts : List AlertRec) (s : ℚ)
    (f : Nat)
    (h : (detect_anomalies st storage dbId hist latest now alerts).1 =
      .result true s f) :
    (detect_anomalies st storage dbId hist latest now alerts).2.2 =
      alerts ++ [createAnomalyAlert dbId s] := by
  unfold detect_anomalies at h ⊢
  exact anomalyServe_appends_one_alert _ _ _ _ _ _ s f h

/-- Alert storage for the C1 evaluation: target-specific anomaly model and
scaler for target 1, the model flagging every sample as an outlier. -/
def c1_storage : String → Option MLModel := fun p =>
  if p = "ml_models/anomaly_detector_db_1.pkl" then
    some { predict := -1, decision := -1 }
  else if p = "ml_models/anomaly_scaler_db_1.pkl" then
    some { predict := 0, decision := 0 }
  else none

/-- A fully populated metric sample for the C1 evaluation. -/
def c1_metrics : MetricRec :=
  { cpu_usage := some 50, memory_usage := some 60, disk_io := some 10
    active_connections := some 5, cache_hit_ratio := some 99
    avg_query_time := some 12, locks_count := some 3
    deadlocks_count := some 0 }

/-- First anomaly-detection run for C1 (empty alert store). -/
def c1_run1 : AnomalyOutcome × AnalyzerState × List AlertRec :=
  detect_anomalies initAnalyzerState c1_storage (some 1) 100 c1_metrics 0 []

/-- Second anomaly-detection run for C1, 60 s later, over the state and alert
store left by the first run (the anomaly is still unacknowledged and
unresolved). -/
def c1_run2 : AnomalyOutcome × AnalyzerState × List AlertRec :=
  detect_anomalies c1_run1.2.1 c1_storage (some 1) 100 c1_metrics 60
    c1_run1.2.2

/-- C1 counterexample: detecting the same unresolved anomaly on a later run
creates a second alert — after two runs the store holds two
simultaneously-open alerts for the same (target 1, `performance_anomaly`)
pair, because `_create_anomaly_alert` never checks for an existing open
alert. -/
theorem C1_duplicate_open_anomaly_alerts :
    c1_run2.2.2 =
      [createAnomalyAlert (some 1) (-1), createAnomalyAlert (some 1) (-1)] ∧
    hasOpenDup c1_run2.2.2 = true ∧
    alertOpen (createAnomalyAlert (some 1) (-1)) = true := by
  refine ⟨by decide, by decide, by decide⟩

/-- C1 (amended): the no-duplicate invariant holds for the threshold-analysis
path — `analyze_metrics_and_generate_alerts` (modelled from the spec, its
implementation being absent from src/) never leaves two simultaneously-open
alerts for the same (target, metric-name) pair — while the anomaly-detection
path appends exactly one new open alert on every anomalous detection, so
re-detecting a still-open anomaly adds one alert per run rather than zero. -/
theorem C1_threshold_dedup_anomaly_accumulates (dbId : Nat)
    (breached : List (String × ℚ × ℚ)) (alerts : List AlertRec)
    (st : AnalyzerState) (storage : String → Option MLModel)
    (dbIdO : Option Nat) (hist : Nat) (latest : MetricRec) (now : Nat)
    (al : List AlertRec) (hnd : hasOpenDup alerts = false) :
    hasOpenDup (analyze_metrics_and_generate_alerts dbId breached alerts) =
      false ∧
    (∀ s f, (detect_anomalies st storage dbIdO hist latest now al).1 =
        .result true s f →
      (detect_anomalies st storage dbIdO hist latest now al).2.2 =
        al ++ [createAnomalyAlert dbIdO s]) :=
  ⟨analyze_metrics_preserves_no_dup dbId breached alerts hnd,
   fun s f h => detect_anomalies_appends_one_alert st storage dbIdO hist
     latest now al s f h⟩

/-- Witness for C1 (amended): a concrete breached metric over an empty store
stays duplicate-free, and the concrete anomalous run appends exactly one open
alert. -/
theorem C1_threshold_dedup_anomaly_accumulates_witness :
    hasOpenDup (analyze_metrics_and_generate_alerts 1
      [("cpu_usage", 95, 90)] []) = false ∧
    c1_run1.2.2 = [createAnomalyAlert (some 1) (-1)] := by
  have h := C1_threshold_dedup_anomaly_accumulates 1 [("cpu_usage", 95, 90)]
    [] initAnalyzerState c1_storage (some 1) 100 c1_metrics 0 [] rfl
  exact ⟨h.1, h.2 (-1) 7 (by decide)⟩

end PgProfiler
